import Mathlib

/-!
Shallow embedding of the pyavd repository (src/pyavd/pyavd.py and
src/android_sdk_utils/_android_sdk_utils.py) together with theorems that
settle the frozen claims about its specification.

Strings coming from tool output are modelled as `List Char` internally
(Python iterates over lines as text); the `String` entry points convert via
`String.data`.  Machine behaviour that is external to the program (spawned
processes, the filesystem, the adb client, the wall clock) is passed in
explicitly as data, so every definition is executable.
-/

/-! ## Python string primitives used by the source -/

/-- Whitespace as recognised by Python's str.strip and the regex class \s
(restricted to the ASCII whitespace characters, the only ones that occur in
tool output): space, tab, newline, carriage return, vertical tab, form feed. -/
def pyWs (c : Char) : Bool :=
  c == ' ' || c == '\t' || c == '\n' || c == '\r' || c == Char.ofNat 11 || c == Char.ofNat 12

/-- Python str.strip(): drop leading and trailing whitespace. -/
def pyStrip (l : List Char) : List Char :=
  ((l.dropWhile pyWs).reverse.dropWhile pyWs).reverse

/-- str.strip() on a packed string. -/
def pyStripS (s : String) : String :=
  String.mk (pyStrip s.data)

/-- Python line.split(":", 1): split at the first colon, dropping it.  The
source only uses the result under an `":" in line` guard, so the no-colon
case (second component empty) is never reached there. -/
def splitColon1 : List Char → List Char × List Char
  | [] => ([], [])
  | c :: r =>
    if c = ':' then ([], r)
    else
      let p := splitColon1 r
      (c :: p.1, p.2)

/-- Python str.upper() (ASCII). -/
def pyUpper (l : List Char) : List Char :=
  l.map Char.toUpper

/-- str.upper() on a packed string (kernel-reducible form). -/
def pyUpperS (s : String) : String :=
  String.mk (pyUpper s.data)

/-- Match a literal prefix, returning the remainder of the input. -/
def dropPre : List Char → List Char → Option (List Char)
  | [], l => some l
  | _, [] => none
  | p :: ps, c :: cs => if p = c then dropPre ps cs else none

/-- Value of a non-empty digit run. -/
def digitsVal (l : List Char) : Nat :=
  l.foldl (fun a c => a * 10 + (c.toNat - 48)) 0

/-- Digit tail of a Python int literal after its first digit: digits with
single underscores allowed between digits (the grammar accepted by int()). -/
def pyIntDigits (acc : Nat) : List Char → Option Nat
  | [] => some acc
  | '_' :: rest =>
    match rest with
    | c :: r => if c.isDigit then pyIntDigits (acc * 10 + (c.toNat - 48)) r else none
    | [] => none
  | c :: r => if c.isDigit then pyIntDigits (acc * 10 + (c.toNat - 48)) r else none

/-- A Python int literal body: at least one digit, underscores between digits. -/
def pyIntStart : List Char → Option Nat
  | [] => none
  | c :: r => if c.isDigit then pyIntDigits (c.toNat - 48) r else none

/-- Python int(v) on a string: surrounding whitespace, an optional sign, then
a digit run (with underscores between digits); anything else is a ValueError,
modelled as none. -/
def pyInt (l : List Char) : Option Int :=
  match pyStrip l with
  | '+' :: r => (pyIntStart r).map Int.ofNat
  | '-' :: r => (pyIntStart r).map (fun n => -(n : Int))
  | r => (pyIntStart r).map Int.ofNat

/-! ## Target and Device records (src/pyavd/pyavd.py lines 114-208) -/

/-- Dataclass Target: id defaults to -1 (the empty sentinel). -/
structure Target where
  id : Int := -1
  id_alias : Option String := none
  name : Option String := none
  target_type : Option String := none
  api_level : Option Int := none
  revision : Option Int := none
deriving Repr, DecidableEq

/-- Target.is_empty: the record still carries the empty sentinel. -/
def Target.is_empty (t : Target) : Bool :=
  t.id == -1

/-- Dataclass Device: id defaults to -1 (the empty sentinel), tag to "". -/
structure Device where
  id : Int := -1
  id_alias : Option String := none
  name : Option String := none
  oem : Option String := none
  tag : String := ""
deriving Repr, DecidableEq

/-- Device.is_empty: the record still carries the empty sentinel. -/
def Device.is_empty (d : Device) : Bool :=
  d.id == -1

/-- The _ID_RE regex match (shared by Target and Device):
`id: (\d+) or "([^"]+)"` anchored at the start of the line (re.match);
returns the numeric id and the alias characters on success.  Trailing
characters after the closing quote are permitted, as with re.match. -/
def parseIdLine (l : List Char) : Option (Nat × List Char) :=
  match dropPre "id: ".data l with
  | none => none
  | some r1 =>
    let ds := r1.takeWhile Char.isDigit
    if ds.isEmpty then none
    else
      match dropPre " or \"".data (r1.drop ds.length) with
      | none => none
      | some r2 =>
        let al := r2.takeWhile (fun c => c ≠ '"')
        if al.isEmpty then none
        else if (r2.drop al.length).head? = some '"' then some (digitsVal ds, al)
        else none

/-- One non-blank, non-delimiter line of Target._parse: first the id regex,
then the key/value mapping NAME/TYPE/API LEVEL/REVISION; numeric coercion
failure is a ValueError (Except.error), unrecognised keys are ignored. -/
def Target.stepLine (cur : Target) (line : List Char) : Except String Target :=
  match parseIdLine line with
  | some p => .ok { cur with id := (p.1 : Int), id_alias := some (String.mk p.2) }
  | none =>
    if line.contains ':' then
      let p := splitColon1 line
      let k := String.mk (pyUpper (pyStrip p.1))
      let v := pyStrip p.2
      if k = "NAME" then .ok { cur with name := some (String.mk v) }
      else if k = "TYPE" then .ok { cur with target_type := some (String.mk v) }
      else if k = "API LEVEL" then
        match pyInt v with
        | some n => .ok { cur with api_level := some n }
        | none => .error ("invalid literal for int: " ++ String.mk v)
      else if k = "REVISION" then
        match pyInt v with
        | some n => .ok { cur with revision := some n }
        | none => .error ("invalid literal for int: " ++ String.mk v)
      else .ok cur
    else .ok cur

/-- The guarded yield `if cur and not cur.is_empty(): yield cur`. -/
def Target.emit : Option Target → List Target
  | none => []
  | some c => if c.is_empty then [] else [c]

/-- Target section delimiter: line.startswith("----------") (ten dashes). -/
def isDash10 (l : List Char) : Bool :=
  (List.replicate 10 '-').isPrefixOf l

/-- The loop of Target._parse.  A raised ValueError aborts the whole
iteration (the callers drain the generator with list(...)), which is
modelled by the Except.error result discarding earlier yields. -/
def Target.parseAux : List (List Char) → Option Target → Except String (List Target)
  | [], cur => .ok (Target.emit cur)
  | raw :: rest, cur =>
    let line := pyStrip raw
    if line.isEmpty then Target.parseAux rest cur
    else if isDash10 line then
      match Target.parseAux rest (some {}) with
      | .ok l => .ok (Target.emit cur ++ l)
      | .error e => .error e
    else
      match Target.stepLine (cur.getD {}) line with
      | .ok c => Target.parseAux rest (some c)
      | .error e => .error e

/-- Target._parse on the decoded output lines, drained by list(...) as in
Target.get_targets. -/
def Target.parse (lines : List String) : Except String (List Target) :=
  Target.parseAux (lines.map String.data) none

/-- One non-blank, non-delimiter line of Device._parse (mapping
NAME/OEM/TAG; no numeric fields, hence no failure path). -/
def Device.stepLine (cur : Device) (line : List Char) : Device :=
  match parseIdLine line with
  | some p => { cur with id := (p.1 : Int), id_alias := some (String.mk p.2) }
  | none =>
    if line.contains ':' then
      let p := splitColon1 line
      let k := String.mk (pyUpper (pyStrip p.1))
      let v := pyStrip p.2
      if k = "NAME" then { cur with name := some (String.mk v) }
      else if k = "OEM" then { cur with oem := some (String.mk v) }
      else if k = "TAG" then { cur with tag := String.mk v }
      else cur
    else cur

/-- The guarded yield of Device._parse. -/
def Device.emit : Option Device → List Device
  | none => []
  | some c => if c.is_empty then [] else [c]

/-- Device section delimiter: line.startswith("---------") (nine dashes). -/
def isDash9 (l : List Char) : Bool :=
  (List.replicate 9 '-').isPrefixOf l

/-- The loop of Device._parse. -/
def Device.parseAux : List (List Char) → Option Device → List Device
  | [], cur => Device.emit cur
  | raw :: rest, cur =>
    let line := pyStrip raw
    if line.isEmpty then Device.parseAux rest cur
    else if isDash9 line then
      Device.emit cur ++ Device.parseAux rest (some {})
    else
      Device.parseAux rest (some (Device.stepLine (cur.getD {}) line))

/-- Device._parse on the decoded output lines, drained by list(...) as in
Device.get_devices. -/
def Device.parse (lines : List String) : List Device :=
  Device.parseAux (lines.map String.data) none

/-! ## The AVD record and the avd-list parser (src/pyavd/pyavd.py 214-268, 421-462) -/

/-- The mutable state of one AVD entry that _parse_avd_list builds.  The
name defaults to the reserved placeholder "invalid" (the empty sentinel);
the live-process handle is not part of parsing and is omitted. -/
structure AVD where
  name : String := "invalid"
  device : Option Device := none
  path : Option String := none
  target : Option String := none
  skin : Option String := none
  sdcard_size : Option String := none
  based_on : Option String := none
  abi : Option String := none
deriving Repr, DecidableEq

/-- AVD.is_empty: the name still carries the reserved placeholder. -/
def AVD.is_empty (a : AVD) : Bool :=
  a.name == "invalid"

/-- Helper for the bracket-stripping regex: drop up to and including the
first closing bracket character, or report that none exists. -/
def dropToClose : List Char → Option (List Char)
  | [] => none
  | c :: r => if c = ')' ∨ c = ']' then some r else dropToClose r

/-- dropToClose never lengthens its input. -/
theorem dropToClose_length :
    ∀ {r r2 : List Char}, dropToClose r = some r2 → r2.length ≤ r.length := by
  intro r
  induction r with
  | nil => intro r2 h; simp [dropToClose] at h
  | cons a as ih =>
    intro r2 h
    rw [dropToClose] at h
    by_cases ha : a = ')' ∨ a = ']'
    · simp only [ha, if_pos] at h
      cases h
      simp
    · simp only [ha, if_neg, not_false_iff] at h
      have := ih h
      simp only [List.length_cons]
      omega

/-- Fuel-indexed core of the bracket-stripping substitution.  Every step
consumes at least one character (dropToClose never lengthens its input, see
dropToClose_length), so any fuel at least the length of the list makes the
zero-fuel branch unreachable; the recursion is structural so that the
function evaluates by kernel reduction. -/
def cleanFuel : Nat → List Char → List Char
  | _, [] => []
  | 0, l => l
  | fuel + 1, c :: r =>
    if c = '(' ∨ c = '[' then
      match dropToClose r with
      | some r2 => cleanFuel fuel r2
      | none => c :: cleanFuel fuel r
    else c :: cleanFuel fuel r

/-- re.sub of the pattern that removes bracketed runs from a device field:
an opening '(' or '[' together with the shortest run of characters up to the
next ')' or ']' is deleted; an opening bracket with no closer does not match
and is kept.  (Input lines carry no newline, so the dot class is total.) -/
def cleanBrackets (l : List Char) : List Char :=
  cleanFuel l.length l

/-- The AVD.device setter: strip bracketed annotations, strip whitespace,
and look the result up by alias in the device catalog (Device.get_devices is
abstracted as the catalog argument). -/
def deviceSetter (catalog : List Device) (s : List Char) : Option Device :=
  let cleaned := String.mk (pyStrip (cleanBrackets s))
  catalog.find? (fun d => d.id_alias == some cleaned)

/-- The regex match `^(\S+)` used to take the alias token of a raw device
field: succeeds iff the value starts with a non-whitespace character, and
returns its maximal non-whitespace prefix. -/
def firstToken (l : List Char) : Option (List Char) :=
  match l with
  | [] => none
  | c :: _ => if pyWs c then none else some (l.takeWhile (fun c => !pyWs c))

/-- Tail of the _BASED_ON_RE match: the input must consist of at least one
whitespace character, the literal "Tag/ABI:", then at least one whitespace
character followed by at least one further character; the returned group is
everything after that whitespace run, except that when only whitespace
remains the greedy run backtracks one character so the group is the final
whitespace character. -/
def matchTagAbi (l : List Char) : Option (List Char) :=
  match l with
  | [] => none
  | c :: _ =>
    if pyWs c then
      match dropPre "Tag/ABI:".data (l.dropWhile pyWs) with
      | none => none
      | some r3 =>
        match r3 with
        | [] => none
        | c2 :: _ =>
          if pyWs c2 then
            let r4 := r3.dropWhile pyWs
            if r4.isEmpty then
              if r3.length ≥ 2 then some (r3.drop (r3.length - 1)) else none
            else some r4
          else none
    else none

/-- The non-greedy `(?P<android>.+?)` group: extend the android prefix one
character at a time (shortest match first) until the remainder matches the
Tag/ABI tail. -/
def basedOnGo (a : List Char) : List Char → Option (List Char × List Char)
  | [] => none
  | c :: r =>
    match matchTagAbi r with
    | some abi => some (a ++ [c], abi)
    | none => basedOnGo (a ++ [c]) r

/-- _BASED_ON_RE.match on a "Based on" value: split into the android
descriptor and the Tag/ABI group, or fail. -/
def basedOnSplit (l : List Char) : Option (List Char × List Char) :=
  basedOnGo [] l

/-- One non-blank, non-delimiter, colon-carrying line of _parse_avd_list.
The DEVICE case performs both assignments of the source: first the setter on
the whole value, then the setter on the `^(\S+)` alias token; a value with
no such token is the AttributeError the source would raise on
`re.match(...).group(1)`. -/
def AVD.stepLine (catalog : List Device) (cur : AVD) (line : List Char) :
    Except String AVD :=
  if line.contains ':' then
    let p := splitColon1 line
    let k := String.mk (pyUpper (pyStrip p.1))
    let v := pyStrip p.2
    if k = "NAME" then .ok { cur with name := String.mk v }
    else if k = "DEVICE" then
      let c1 := { cur with device := deviceSetter catalog v }
      match firstToken v with
      | some tok => .ok { c1 with device := deviceSetter catalog tok }
      | none => .error "AttributeError: NoneType has no attribute group"
    else if k = "PATH" then .ok { cur with path := some (String.mk v) }
    else if k = "TARGET" then .ok { cur with target := some (String.mk v) }
    else if k = "SKIN" then .ok { cur with skin := some (String.mk v) }
    else if k = "SDCARD" then .ok { cur with sdcard_size := some (String.mk v) }
    else if k = "BASED ON" then
      match basedOnSplit v with
      | some q =>
        .ok { cur with based_on := some (String.mk (pyStrip q.1)),
                       abi := some (String.mk (pyStrip q.2)) }
      | none => .ok cur
    else .ok cur
  else .ok cur

/-- The guarded yield `if not current.is_empty(): yield current`. -/
def AVD.emit (a : AVD) : List AVD :=
  if a.is_empty then [] else [a]

/-- _AVD_SECTION: the regex `^----+`, i.e. at least four leading dashes. -/
def isDash4 (l : List Char) : Bool :=
  (List.replicate 4 '-').isPrefixOf l

/-- The loop of _parse_avd_list; `current` starts as AVD() and is reset at
every section delimiter. -/
def parseAvdAux (catalog : List Device) :
    List (List Char) → AVD → Except String (List AVD)
  | [], cur => .ok (AVD.emit cur)
  | raw :: rest, cur =>
    let line := pyStrip raw
    if line.isEmpty then parseAvdAux catalog rest cur
    else if isDash4 line then
      match parseAvdAux catalog rest {} with
      | .ok l => .ok (AVD.emit cur ++ l)
      | .error e => .error e
    else
      match AVD.stepLine catalog cur line with
      | .ok c => parseAvdAux catalog rest c
      | .error e => .error e

/-- _parse_avd_list on the decoded output lines, drained by list(...) as in
AVD.get_avds; the device catalog consulted by the AVD.device setter is the
explicit first argument. -/
def _parse_avd_list (catalog : List Device) (lines : List String) :
    Except String (List AVD) :=
  parseAvdAux catalog (lines.map String.data) {}

/-! ## The process-running helper and AVD.delete (src/pyavd/pyavd.py 64-92, 336-342) -/

/-- Platforms distinguished by the source (sys.platform prefixes). -/
inductive Plat where
  | linux
  | darwin
  | windows
deriving Repr, DecidableEq

/-- Byte strings (stdout/stderr of a process). -/
abbrev Bytes := List Nat

/-- What the operating system did for one spawned process that ran to
completion: its exit status and the two captured byte streams (PIPE capture
always yields bytes). -/
structure ProcOutcome where
  returncode : Int
  stdout : Bytes
  stderr : Bytes
deriving Repr, DecidableEq

/-- subprocess.CompletedProcess as the source constructs it. -/
structure CompletedProcess where
  args : List String
  returncode : Int
  stdout : Bytes
  stderr : Bytes
deriving Repr, DecidableEq

/-- Python `b or b""` on a bytes value: an empty bytes object is falsy. -/
def pyOrBytes (b : Bytes) (d : Bytes) : Bytes :=
  if b.isEmpty then d else b

/-- The Windows rewrite at the top of _run: when the first argv element is
an on-disk file without a .exe/.com suffix, the call is wrapped through
cmd.exe.  The filesystem probe and the suffix test are passed in as data. -/
def winWrap (plat : Plat) (isFileNoExeSuffix : String → Bool) (cmd : List String) :
    List String :=
  match plat, cmd with
  | .windows, c0 :: _ => if isFileNoExeSuffix c0 then "cmd" :: "/c" :: cmd else cmd
  | _, _ => cmd

/-- _run: spawn with check=True, catch CalledProcessError and return a
CompletedProcess carrying the failing exit status and the captured output
(`e.stdout or b""`).  The function is total: a non-zero exit is never
re-raised. -/
def _run (plat : Plat) (isFileNoExeSuffix : String → Bool) (cmd : List String)
    (o : ProcOutcome) : CompletedProcess :=
  let cmd2 := winWrap plat isFileNoExeSuffix cmd
  if o.returncode = 0 then
    { args := cmd2, returncode := o.returncode, stdout := o.stdout, stderr := o.stderr }
  else
    { args := cmd2, returncode := o.returncode,
      stdout := pyOrBytes o.stdout [], stderr := pyOrBytes o.stderr [] }

/-- AVD.delete: run `avdmanager delete avd -n name` and return True.  The
source's `except subprocess.CalledProcessError` branch (log and return
False) is unreachable, because _run already converts that exception into a
returned CompletedProcess, so this embedding returns true for every
outcome of the external command. -/
def AVD.delete (plat : Plat) (isFileNoExeSuffix : String → Bool)
    (avdmanager : String) (name : String) (o : ProcOutcome) : Bool :=
  let _ := _run plat isFileNoExeSuffix [avdmanager, "delete", "avd", "-n", name] o
  true

/-! ## AVD.create command building (src/pyavd/pyavd.py 281-334) -/

/-- The device argument of AVD.create: a Device record, a numeric id, or an
alias/name string. -/
inductive DeviceRef where
  | record (d : Device)
  | num (n : Int)
  | str (s : String)
deriving Repr, DecidableEq

/-- The keyword arguments of AVD.create. -/
structure CreateArgs where
  name : String
  package : String
  device : DeviceRef
  sdcard : Option String := none
  tag : Option String := none
  abi : Option String := none
  skin : Option String := none
  path : Option String := none
  force : Bool := false
  snapshot : Bool := false
  silent : Bool := false
  verbose : Bool := false
deriving Repr, DecidableEq

/-- `if value: cmd.extend([flag, str(value)])` for one optional flag: None
and the empty string are both falsy and add nothing. -/
def optFlag (flag : String) (v : Option String) : List String :=
  match v with
  | some s => if s = "" then [] else [flag, s]
  | none => []

/-- The command-building portion of AVD.create, up to the point where the
source hands the list to _run.  Result: the full argv on success, or the
ValueError raised before any creation command is issued (conflicting
verbosity flags, or a string device reference that matches no catalog entry
by alias or name).  The catalog argument abstracts Device.get_devices();
the subsequent _run and get_by_name re-query are outside this function. -/
def AVD.create (avdmanager : String) (catalog : List Device) (a : CreateArgs) :
    Except String (List String) :=
  if a.silent && a.verbose then
    .error "'silent' and 'verbose' cannot both be True"
  else
    let devId : Except String Int :=
      match a.device with
      | .record d => .ok d.id
      | .num n => .ok n
      | .str s =>
        match catalog.find? (fun d => d.id_alias == some s || d.name == some s) with
        | some m => .ok m.id
        | none => .error ("Unknown device '" ++ s ++ "'")
    match devId with
    | .error e => .error e
    | .ok did =>
      .ok ([avdmanager]
        ++ (if a.silent || a.verbose then [if a.silent then "--silent" else "--verbose"] else [])
        ++ ["create", "avd", "-n", a.name, "--package", a.package, "--device", toString did]
        ++ optFlag "--sdcard" a.sdcard
        ++ optFlag "--tag" a.tag
        ++ optFlag "--abi" a.abi
        ++ optFlag "--skin" a.skin
        ++ optFlag "--path" a.path
        ++ (if a.force then ["--force"] else [])
        ++ (if a.snapshot then ["--snapshot"] else []))

/-! ## AVD.wait_boot_completed (src/pyavd/pyavd.py 392-415) -/

/-- One entry of adb client.list(extended=True): a serial and the tag map. -/
structure AdbDeviceInfo where
  serial : String
  tags : List (String × String)
deriving Repr, DecidableEq

/-- Python dict.get on the tag map. -/
def tagsGet (tags : List (String × String)) (k : String) : Option String :=
  (tags.find? (fun p => p.1 == k)).map (fun p => p.2)

/-- Errors raised by wait_boot_completed. -/
inductive WaitErr where
  | runtimeError (msg : String)
  | bootTimeout (msg : String)
deriving Repr, DecidableEq

/-- The polling loop of wait_boot_completed under the timing model in which
the k-th `time.time()` check reads t0 + 5k (each iteration ends in
time.sleep(5); the shell query itself is charged no time).  The shell oracle
gives the text of the k-th `getprop sys.boot_completed` query, or none when
that query raised (the source swallows the exception and keeps polling).
Returns the success flag and how many polls were made.  The fuel only bounds
the recursion: at fuel of at least timeout the zero-fuel branch coincides
with the loop-exit branch, since after timeout iterations the clock has
advanced by 5 * timeout, which is at least the timeout. -/
def pollBoot (shell : Nat → Option String) (deadline : Nat) :
    Nat → Nat → Nat → Bool × Nat
  | 0, _, k => (false, k)
  | fuel + 1, t, k =>
    if t < deadline then
      match shell k with
      | some s =>
        if pyStripS s = "1" then (true, k + 1)
        else pollBoot shell deadline fuel (t + 5) (k + 1)
      | none => pollBoot shell deadline fuel (t + 5) (k + 1)
    else (false, k)

/-- AVD.wait_boot_completed: resolve the serial of the running emulator by
matching the "product" tag of the extended device listing against the AVD
name (first match wins; a missing or empty serial is the RuntimeError), then
poll the boot-completion property until the deadline t0 + timeout passes.
Result: unit or the raised error, paired with the number of polls made. -/
def AVD.wait_boot_completed (devices : List AdbDeviceInfo) (name : String)
    (shell : Nat → Option String) (t0 timeout : Nat) :
    Except WaitErr Unit × Nat :=
  let deadline := t0 + timeout
  match devices.find? (fun i => tagsGet i.tags "product" == some name) with
  | none => (.error (.runtimeError ("No emulator found for AVD " ++ name)), 0)
  | some i =>
    if i.serial = "" then
      (.error (.runtimeError ("No emulator found for AVD " ++ name)), 0)
    else
      match pollBoot shell deadline timeout t0 0 with
      | (true, k) => (.ok (), k)
      | (false, k) =>
        (.error (.bootTimeout
          ("AVD " ++ name ++ " failed to boot within " ++ toString timeout ++ "s")), k)

/-! ## The tool locator (src/android_sdk_utils/_android_sdk_utils.py) -/

/-- The ambient machine state find_android_tool probes, passed in as data:
environment variables, PATH resolution (shutil.which), filesystem tests, the
glob of bin directories one level under cmdline-tools, and the first result
of a recursive filename search.  The home directory backs expanduser. -/
structure SdkWorld where
  getenv : String → Option String
  which : String → Option String
  isFile : String → Bool
  dirExists : String → Bool
  cmdlineToolsBins : String → List String
  rglobFirst : String → String → Option String
  home : String
  platform : Plat

/-- Path.expanduser: a leading "~" or "~/" is replaced by the home
directory; other forms (including "~user", which would need a user
database) are returned unchanged. -/
def expandUser (home p : String) : String :=
  match p.data with
  | ['~'] => home
  | '~' :: '/' :: _ => home ++ String.mk (p.data.drop 1)
  | _ => p

/-- _windows_name: the executable name per platform; avdmanager is a .bat
script on Windows while the other two tools are .exe binaries. -/
def _windows_name (plat : Plat) (tool : String) : String :=
  match plat with
  | .windows => if tool = "avdmanager" then tool ++ ".bat" else tool ++ ".exe"
  | _ => tool

/-- Python `a or b` over optional strings: an unset or empty value falls
through to the second operand. -/
def pyOrStr (a : Option String) (b : Option String) : Option String :=
  match a with
  | some s => if s = "" then b else some s
  | none => b

/-- _scan_sdk: probe the tool-specific subdirectories of one candidate SDK
root (platform-tools for adb, emulator for the emulator, any cmdline-tools/
STAR/bin plus the legacy tools/bin for avdmanager), then fall back to a
recursive scan of the whole root when deep is requested. -/
def _scan_sdk (w : SdkWorld) (root tool : String) (deep : Bool) : Option String :=
  let r := expandUser w.home root
  let exe := _windows_name w.platform tool
  let dirs : List String :=
    if tool = "adb" then [r ++ "/platform-tools"]
    else if tool = "emulator" then [r ++ "/emulator"]
    else
      (if deep || w.dirExists (r ++ "/cmdline-tools") then w.cmdlineToolsBins r else [])
        ++ [r ++ "/tools/bin"]
  match dirs.findSome? (fun d =>
      let cand := d ++ "/" ++ exe
      if w.isFile cand then some cand else none) with
  | some c => some c
  | none => if deep then w.rglobFirst r exe else none

/-- _default_sdk_roots: the platform-conventional SDK install roots. -/
def _default_sdk_roots (w : SdkWorld) : List String :=
  match w.platform with
  | .darwin => [expandUser w.home "~/Library/Android/sdk", w.home ++ "/Android/Sdk"]
  | .windows => [((w.getenv "LOCALAPPDATA").getD "") ++ "/Android/Sdk",
                 w.home ++ "/AppData/Local/Android/Sdk"]
  | .linux => [w.home ++ "/Android/Sdk", "/opt/android-sdk"]

/-- Errors raised by find_android_tool. -/
inductive ToolErr where
  | invalidArgument (msg : String)
  | fileNotFound (msg : String)
deriving Repr, DecidableEq

/-- find_android_tool: reject unsupported tool names before any probing,
then search in order: the dedicated ANDROID_TOOLNAME override (used only
when it names an existing file after user expansion), shutil.which on the
bare and platform-suffixed names, the ANDROID_SDK_ROOT/ANDROID_HOME root,
the default roots, and finally the comma-separated FIND_ANDROID_EXTRA_DIRS
roots scanned deeply.  First hit wins. -/
def find_android_tool (w : SdkWorld) (tool : String) : Except ToolErr String :=
  if tool = "adb" ∨ tool = "emulator" ∨ tool = "avdmanager" then
    let explicitHit : Option String :=
      match w.getenv ("ANDROID_" ++ pyUpperS tool) with
      | some e =>
        if e ≠ "" && w.isFile (expandUser w.home e) then some (expandUser w.home e)
        else none
      | none => none
    let pathHit : Option String :=
      match pyOrStr (w.which tool) (w.which (_windows_name w.platform tool)) with
      | some p => if p = "" then none else some p
      | none => none
    let sdkRootHit : Option String :=
      match pyOrStr (w.getenv "ANDROID_SDK_ROOT") (w.getenv "ANDROID_HOME") with
      | some root => if root = "" then none else _scan_sdk w root tool false
      | none => none
    let defaultHit : Option String :=
      (_default_sdk_roots w).findSome? (fun r => _scan_sdk w r tool false)
    let extraHit : Option String :=
      ((((w.getenv "FIND_ANDROID_EXTRA_DIRS").getD "").splitOn ",").map pyStripS).findSome?
        (fun r => if r = "" then none else _scan_sdk w r tool true)
    match explicitHit with
    | some p => .ok p
    | none =>
      match pathHit with
      | some p => .ok p
      | none =>
        match sdkRootHit with
        | some p => .ok p
        | none =>
          match defaultHit with
          | some p => .ok p
          | none =>
            match extraHit with
            | some p => .ok p
            | none =>
              .error (.fileNotFound ("Could not locate " ++ tool ++ ". "
                ++ "Install Android SDK Platform-Tools / Emulator or set ANDROID_SDK_ROOT."))
  else .error (.invalidArgument ("Unsupported tool: " ++ tool))

/-! ## Claims -/

/-- Claim C1 (code bug evidence): the external deletion command exits with
status 1 and non-empty stderr, yet AVD.delete still returns true.  The
source's `except subprocess.CalledProcessError` branch in delete() — which
would log the failure and return False as the specification states — is dead
code, because _run itself catches CalledProcessError and returns the failure
as a CompletedProcess.  Hence delete() cannot report an external failure. -/
theorem c1_delete_returns_true_on_failure :
    AVD.delete .linux (fun _ => false) "avdmanager" "demo"
      { returncode := 1, stdout := [], stderr := [101, 114, 114] } = true := by
  rfl

/-- Claim C3: for every command argv and every exit status of the spawned
process, _run returns (never raises) a captured CompletedProcess carrying
exactly that exit status and the captured stdout and stderr bytes.  The
result type of the embedding is total — the CalledProcessError raised by
check=True is consumed inside _run — so a non-zero exit is communicated as
data, and the claim quantifies over every platform and filesystem state
(which only affect the rewritten argv, not the captured result). -/
theorem c3_run_captures_every_exit (plat : Plat) (isF : String → Bool)
    (cmd : List String) (o : ProcOutcome) :
    (_run plat isF cmd o).returncode = o.returncode ∧
    (_run plat isF cmd o).stdout = o.stdout ∧
    (_run plat isF cmd o).stderr = o.stderr := by
  unfold _run
  by_cases h : o.returncode = 0
  · simp [h]
  · refine ⟨by simp [h], ?_, ?_⟩ <;>
      simp only [h, if_neg, not_false_iff, pyOrBytes] <;>
      split <;> simp_all [List.isEmpty_iff]

/-- Claim C9: for every tool name outside the supported set, and every state
of the environment, PATH and filesystem, find_android_tool returns the
invalid-argument error.  Because the result is the same for every SdkWorld,
no environment or filesystem probing can influence the outcome — the
rejection happens before any search. -/
theorem c9_unsupported_tool_invalid_argument (w : SdkWorld) (tool : String)
    (h1 : tool ≠ "adb") (h2 : tool ≠ "emulator") (h3 : tool ≠ "avdmanager") :
    find_android_tool w tool = .error (.invalidArgument ("Unsupported tool: " ++ tool)) := by
  unfold find_android_tool
  rw [if_neg]
  simp [h1, h2, h3]

/-- Witness for C9 at the unsupported name "gradle" on a concrete world. -/
theorem c9_witness :
    find_android_tool
      { getenv := fun _ => none, which := fun _ => none, isFile := fun _ => false,
        dirExists := fun _ => false, cmdlineToolsBins := fun _ => [],
        rglobFirst := fun _ _ => none, home := "/home/u", platform := .linux }
      "gradle" = .error (.invalidArgument ("Unsupported tool: " ++ "gradle")) :=
  c9_unsupported_tool_invalid_argument _ "gradle"
    (by decide) (by decide) (by decide)

/-- Claim C5: a string device reference that matches no catalog entry by
alias or name makes AVD.create fail with the ValueError, so no creation
command list is ever produced for _run (the Except.ok constructor is the
only way a command leaves AVD.create). -/
theorem c5_unknown_device_no_command (avdmanager : String) (catalog : List Device)
    (a : CreateArgs) (s : String)
    (hd : a.device = .str s)
    (hm : catalog.find? (fun d => d.id_alias == some s || d.name == some s) = none) :
    ∃ e, AVD.create avdmanager catalog a = .error e := by
  unfold AVD.create
  by_cases hsv : (a.silent && a.verbose) = true
  · rw [if_pos hsv]
    exact ⟨_, rfl⟩
  · rw [if_neg hsv]
    simp only [hd, hm]
    exact ⟨_, rfl⟩

/-- Witness for C5: an empty catalog and the reference "does-not-exist". -/
theorem c5_witness :
    ∃ e, AVD.create "am" []
      { name := "bad", package := "pkg", device := .str "does-not-exist" } = .error e :=
  c5_unknown_device_no_command "am" [] _ "does-not-exist" rfl rfl

/-- Claim C8: for every supported tool kind and every machine state, if the
dedicated ANDROID_TOOLNAME override is set (non-empty) and names an existing
regular file, find_android_tool returns that path — the user-expanded form
the source returns, which is the literal override whenever it does not start
with a tilde.  Because the SdkWorld is universally quantified, the result is
independent of whatever PATH, SDK-root, default-root or extra-directory
candidates exist: the override has strict priority. -/
theorem c8_override_wins (w : SdkWorld) (tool p : String)
    (ht : tool = "adb" ∨ tool = "emulator" ∨ tool = "avdmanager")
    (hp : w.getenv ("ANDROID_" ++ pyUpperS tool) = some p)
    (hne : p ≠ "")
    (hf : w.isFile (expandUser w.home p) = true) :
    find_android_tool w tool = .ok (expandUser w.home p) := by
  unfold find_android_tool
  rw [if_pos ht]
  simp only [hp, hne, hf]
  simp [hne]

/-- Witness for C8: the override points at /sdk/adb (an existing file, a
path with no tilde, so it is returned exactly) while PATH would resolve the
tool elsewhere. -/
theorem c8_witness :
    find_android_tool
      { getenv := fun k => if k = "ANDROID_ADB" then some "/sdk/adb" else none,
        which := fun _ => some "/elsewhere/adb",
        isFile := fun q => q = "/sdk/adb",
        dirExists := fun _ => true, cmdlineToolsBins := fun _ => [],
        rglobFirst := fun _ _ => none, home := "/home/u", platform := .linux }
      "adb" = .ok "/sdk/adb" := by
  have h := c8_override_wins
    { getenv := fun k => if k = "ANDROID_ADB" then some "/sdk/adb" else none,
      which := fun _ => some "/elsewhere/adb",
      isFile := fun q => q = "/sdk/adb",
      dirExists := fun _ => true, cmdlineToolsBins := fun _ => [],
      rglobFirst := fun _ _ => none, home := "/home/u", platform := .linux }
    "adb" "/sdk/adb" (Or.inl rfl) (by decide) (by decide) (by decide)
  exact h

/-- Claim C6: with timeout 0 and a connected device whose product tag
matches the AVD name (found by the listing scan with a non-empty serial),
wait_boot_completed raises BootTimeoutError after zero polls whenever the
remote shell never reports "1" — the deadline t0 + 0 is never ahead of the
clock, so the polling loop body is never entered. -/
theorem c6_boot_timeout_zero_polls (devices : List AdbDeviceInfo) (name : String)
    (shell : Nat → Option String) (t0 : Nat) (i : AdbDeviceInfo)
    (_hsh : ∀ k s, shell k = some s → pyStripS s ≠ "1")
    (hfind : devices.find? (fun j => tagsGet j.tags "product" == some name) = some i)
    (hser : i.serial ≠ "") :
    AVD.wait_boot_completed devices name shell t0 0 =
      (.error (.bootTimeout ("AVD " ++ name ++ " failed to boot within "
        ++ toString (0 : Nat) ++ "s")), 0) := by
  unfold AVD.wait_boot_completed
  simp only [hfind]
  rw [if_neg hser]
  rfl

/-- Witness for C6: one emulator whose product tag matches "demo", a shell
that always answers "0", and start time 100. -/
theorem c6_witness :
    AVD.wait_boot_completed [⟨"emulator-5554", [("product", "demo")]⟩] "demo"
      (fun _ => some "0") 100 0 =
      (.error (.bootTimeout ("AVD " ++ "demo" ++ " failed to boot within "
        ++ toString (0 : Nat) ++ "s")), 0) := by
  have h := c6_boot_timeout_zero_polls
    [⟨"emulator-5554", [("product", "demo")]⟩] "demo" (fun _ => some "0") 100
    ⟨"emulator-5554", [("product", "demo")]⟩
    (by intro k s hk; simp only [Option.some.injEq] at hk; subst hk; decide)
    (by decide) (by decide)
  exact h

/-- Claim C4 (amended): create() resolves a string device reference to the
first catalog entry whose alias or name matches; when that first match is
the Device with id 0 (in particular when the catalog's only match for
"pixel" is Device id 0 alias "pixel"), the command create() builds and
executes is exactly the avdmanager path followed by
["create","avd","-n","demo","--package",pkg,"--device","0"]. -/
theorem c4_create_command_tail (avdmanager pkg : String) (catalog : List Device)
    (d : Device)
    (hm : catalog.find? (fun dv => dv.id_alias == some "pixel" || dv.name == some "pixel")
            = some d)
    (hid : d.id = 0) :
    AVD.create avdmanager catalog
      { name := "demo", package := pkg, device := .str "pixel" } =
      .ok [avdmanager, "create", "avd", "-n", "demo", "--package", pkg, "--device", "0"] := by
  unfold AVD.create
  simp only [hm, hid]
  rfl

/-- Witness for C4 at the test suite's catalog (Device 0 "pixel", Device 1
"Nexus_5X"). -/
theorem c4_witness :
    AVD.create "am"
      [{ id := 0, id_alias := some "pixel", name := some "Pixel 4",
         oem := some "Google", tag := "google" },
       { id := 1, id_alias := some "Nexus_5X", name := some "Nexus 5X",
         oem := some "Google", tag := "default" }]
      { name := "demo", package := "pkg", device := .str "pixel" } =
      .ok ["am", "create", "avd", "-n", "demo", "--package", "pkg", "--device", "0"] := by
  have h := c4_create_command_tail "am" "pkg"
    [{ id := 0, id_alias := some "pixel", name := some "Pixel 4",
       oem := some "Google", tag := "google" },
     { id := 1, id_alias := some "Nexus_5X", name := some "Nexus 5X",
       oem := some "Google", tag := "default" }]
    { id := 0, id_alias := some "pixel", name := some "Pixel 4",
      oem := some "Google", tag := "google" }
    (by decide) (by decide)
  exact h

/-- Counterexample for C4 as stated: this catalog does contain a Device
with id 0 and alias "pixel" (second entry), yet create() builds a command
ending in "--device","7", because the resolution takes the first entry
matching "pixel" by alias OR NAME — here the shadowing first entry whose
name is "pixel" — so the claimed tail is not a suffix of the built
command. -/
theorem c4_cex :
    ((⟨0, some "pixel", some "Pixel 4", none, ""⟩ : Device) ∈
      [(⟨7, some "nexus", some "pixel", none, ""⟩ : Device),
       ⟨0, some "pixel", some "Pixel 4", none, ""⟩]) ∧
    AVD.create "am"
      [⟨7, some "nexus", some "pixel", none, ""⟩,
       ⟨0, some "pixel", some "Pixel 4", none, ""⟩]
      { name := "demo", package := "pkg", device := .str "pixel" } =
      .ok ["am", "create", "avd", "-n", "demo", "--package", "pkg", "--device", "7"] ∧
    (["create", "avd", "-n", "demo", "--package", "pkg", "--device", "0"].isSuffixOf
      ["am", "create", "avd", "-n", "demo", "--package", "pkg", "--device", "7"]) = false := by
  refine ⟨by decide, by rfl, by decide⟩

/-- Every Target released by the guarded yield passed the is_empty check. -/
theorem Target.target_emit_sound (cur : Option Target) (t : Target)
    (ht : t ∈ Target.emit cur) : t.id ≠ -1 := by
  match cur with
  | none => simp [Target.emit] at ht
  | some c =>
    simp only [Target.emit] at ht
    by_cases h : c.is_empty
    · simp [h] at ht
    · simp only [h, if_neg, Bool.not_eq_true, List.mem_singleton] at ht
      subst ht
      simpa [Target.is_empty] using h

/-- Soundness of the Target parsing loop: every record in a successful
result was released by a guarded yield. -/
theorem Target.target_parseAux_sound :
    ∀ (lines : List (List Char)) (cur : Option Target) (res : List Target),
      Target.parseAux lines cur = .ok res → ∀ t ∈ res, t.id ≠ -1 := by
  intro lines
  induction lines with
  | nil =>
    intro cur res h t ht
    simp only [Target.parseAux, Except.ok.injEq] at h
    subst h
    exact Target.target_emit_sound cur t ht
  | cons raw rest ih =>
    intro cur res h t ht
    simp only [Target.parseAux] at h
    split at h
    · exact ih cur res h t ht
    · split at h
      · split at h
        · rename_i l hl
          simp only [Except.ok.injEq] at h
          subst h
          rcases List.mem_append.mp ht with hm | hm
          · exact Target.target_emit_sound cur t hm
          · exact ih (some {}) l hl t hm
        · exact absurd h (by simp)
      · split at h
        · rename_i c hc
          exact ih (some c) res h t ht
        · exact absurd h (by simp)

/-- Every Device released by the guarded yield passed the is_empty check. -/
theorem Device.device_emit_sound (cur : Option Device) (d : Device)
    (hd : d ∈ Device.emit cur) : d.id ≠ -1 := by
  match cur with
  | none => simp [Device.emit] at hd
  | some c =>
    simp only [Device.emit] at hd
    by_cases h : c.is_empty
    · simp [h] at hd
    · simp only [h, if_neg, Bool.not_eq_true, List.mem_singleton] at hd
      subst hd
      simpa [Device.is_empty] using h

/-- Soundness of the Device parsing loop. -/
theorem Device.device_parseAux_sound :
    ∀ (lines : List (List Char)) (cur : Option Device),
      ∀ d ∈ Device.parseAux lines cur, d.id ≠ -1 := by
  intro lines
  induction lines with
  | nil =>
    intro cur d hd
    exact Device.device_emit_sound cur d hd
  | cons raw rest ih =>
    intro cur d hd
    simp only [Device.parseAux] at hd
    split at hd
    · exact ih cur d hd
    · split at hd
      · rcases List.mem_append.mp hd with hm | hm
        · exact Device.device_emit_sound cur d hm
        · exact ih (some {}) d hm
      · exact ih _ d hd

/-- Claim C7: for every input line sequence, neither the Target parser (on
success) nor the Device parser ever yields a record whose id is the empty
sentinel -1; in particular, a section with no identifier line keeps the
default id -1 and is dropped by the guarded yields even when other
recognised fields were populated. -/
theorem c7_no_empty_sentinel (lines : List String) :
    (∀ res, Target.parse lines = .ok res → ∀ t ∈ res, t.id ≠ -1) ∧
    (∀ d ∈ Device.parse lines, d.id ≠ -1) :=
  ⟨fun res h t ht => Target.target_parseAux_sound (lines.map String.data) none res h t ht,
   fun d hd => Device.device_parseAux_sound (lines.map String.data) none d hd⟩

/-- Witness for C7 on concrete listings: a one-target listing and a
one-device listing parse to records whose ids are not -1 (the sections with
populated fields but no id line are dropped). -/
theorem c7_witness :
    Target.parse ["----------", "Name: Orphan", "----------",
        "id: 1 or \"android-34\"", "Name: Android 14"] =
      .ok [{ id := 1, id_alias := some "android-34", name := some "Android 14" }] ∧
    (({ id := 1, id_alias := some "android-34", name := some "Android 14" } : Target).id ≠ -1) ∧
    Device.parse ["---------", "Name: Orphan", "---------", "id: 0 or \"pixel\""] =
      [{ id := 0, id_alias := some "pixel" }] ∧
    (({ id := 0, id_alias := some "pixel" } : Device).id ≠ -1) := by
  refine ⟨by rfl, ?_, by rfl, ?_⟩
  · exact (c7_no_empty_sentinel ["----------", "Name: Orphan", "----------",
      "id: 1 or \"android-34\"", "Name: Android 14"]).1
      [{ id := 1, id_alias := some "android-34", name := some "Android 14" }]
      (by rfl) _ (by simp)
  · exact (c7_no_empty_sentinel ["---------", "Name: Orphan", "---------",
      "id: 0 or \"pixel\""]).2 _ (by rw [show Device.parse ["---------", "Name: Orphan",
      "---------", "id: 0 or \"pixel\""] = [{ id := 0, id_alias := some "pixel" }] from rfl]; simp)

/-- Every AVD released by the guarded yield passed the is_empty check. -/
theorem AVD.avd_emit_sound (cur : AVD) (a : AVD) (ha : a ∈ AVD.emit cur) :
    a.name ≠ "invalid" := by
  simp only [AVD.emit] at ha
  by_cases h : cur.is_empty
  · simp [h] at ha
  · simp only [h, if_neg, Bool.not_eq_true, List.mem_singleton] at ha
    subst ha
    simpa [AVD.is_empty] using h

/-- Soundness of the avd-list parsing loop: every record in a successful
result was released by a guarded yield. -/
theorem parseAvdAux_sound (catalog : List Device) :
    ∀ (lines : List (List Char)) (cur : AVD) (res : List AVD),
      parseAvdAux catalog lines cur = .ok res → ∀ a ∈ res, a.name ≠ "invalid" := by
  intro lines
  induction lines with
  | nil =>
    intro cur res h a ha
    simp only [parseAvdAux, Except.ok.injEq] at h
    subst h
    exact AVD.avd_emit_sound cur a ha
  | cons raw rest ih =>
    intro cur res h a ha
    simp only [parseAvdAux] at h
    split at h
    · exact ih cur res h a ha
    · split at h
      · split at h
        · rename_i l hl
          simp only [Except.ok.injEq] at h
          subst h
          rcases List.mem_append.mp ha with hm | hm
          · exact AVD.avd_emit_sound cur a hm
          · exact ih {} l hl a hm
        · exact absurd h (by simp)
      · split at h
        · rename_i c hc
          exact ih c res h a ha
        · exact absurd h (by simp)

/-- Claim C10: for every device catalog and every input line sequence, a
successful _parse_avd_list never yields a record whose name is the reserved
placeholder "invalid"; a section whose Name field is literally "invalid"
coincides with the empty sentinel and is dropped even when its other fields
were populated, so such an AVD is invisible to get_avds and get_by_name. -/
theorem c10_no_invalid_name (catalog : List Device) (lines : List String)
    (res : List AVD) (h : _parse_avd_list catalog lines = .ok res) :
    ∀ a ∈ res, a.name ≠ "invalid" :=
  fun a ha => parseAvdAux_sound catalog (lines.map String.data) {} res h a ha

/-- Witness for C10: a listing whose first section is literally named
"invalid" (with a populated Path field) is dropped, and the surviving
record's name is not "invalid". -/
theorem c10_witness :
    _parse_avd_list [] ["Name: invalid", "Path: /tmp/x.avd", "--------", "Name: good"] =
      .ok [{ name := "good" }] ∧
    (({ name := "good" } : AVD).name ≠ "invalid") := by
  refine ⟨by rfl, ?_⟩
  exact c10_no_invalid_name [] ["Name: invalid", "Path: /tmp/x.avd", "--------", "Name: good"]
    [{ name := "good" }] (by rfl) _ (by simp)

/-- dropWhile is the identity when every element fails the predicate. -/
theorem dropWhile_eq_self_of_all (p : Char → Bool) :
    ∀ l : List Char, (∀ c ∈ l, p c = false) → l.dropWhile p = l := by
  intro l h
  cases l with
  | nil => rfl
  | cons a m => simp [List.dropWhile_cons, h a (by simp)]

/-- str.strip is the identity on a string of non-whitespace characters. -/
theorem pyStrip_all_nonws (l : List Char) (h : ∀ c ∈ l, pyWs c = false) :
    pyStrip l = l := by
  unfold pyStrip
  rw [dropWhile_eq_self_of_all _ _ h,
    dropWhile_eq_self_of_all _ _ (fun c hc => h c (List.mem_reverse.mp hc)),
    List.reverse_reverse]

/-- str.strip is the identity when the first and last characters are
non-whitespace. -/
theorem pyStrip_sandwich (a b : Char) (m : List Char)
    (ha : pyWs a = false) (hb : pyWs b = false) :
    pyStrip (a :: (m ++ [b])) = a :: (m ++ [b]) := by
  unfold pyStrip
  simp [List.dropWhile_cons, ha, hb]

/-- str.strip absorbs a leading whitespace character. -/
theorem pyStrip_ws_cons (c : Char) (l : List Char) (hc : pyWs c = true) :
    pyStrip (c :: l) = pyStrip l := by
  unfold pyStrip
  simp [List.dropWhile_cons, hc]

/-- The `^(\S+)` token of a non-whitespace run followed by a space is the
run itself. -/
theorem takeWhile_nonws_append (A r : List Char) (hA : ∀ c ∈ A, pyWs c = false) :
    (A ++ ' ' :: r).takeWhile (fun c => !pyWs c) = A := by
  induction A with
  | nil => simp [List.takeWhile_cons, pyWs]
  | cons a m ih =>
    simp only [List.cons_append, List.takeWhile_cons, hA a (by simp),
      Bool.not_false, if_pos]
    rw [ih (fun c hc => hA c (by simp [hc]))]

/-- The bracket-stripping substitution is the identity on bracket-free
input, for any fuel. -/
theorem cleanFuel_no_brackets :
    ∀ (fuel : Nat) (l : List Char), (∀ c ∈ l, c ≠ '(' ∧ c ≠ '[') →
      cleanFuel fuel l = l := by
  intro fuel
  induction fuel with
  | zero =>
    intro l _h
    cases l <;> rfl
  | succ n ih =>
    intro l h
    cases l with
    | nil => rfl
    | cons a m =>
      have ha := h a (by simp)
      simp only [cleanFuel]
      rw [if_neg (by simp [ha.1, ha.2])]
      rw [ih m (fun c hc => h c (by simp [hc]))]

/-- cleanBrackets is the identity on bracket-free input. -/
theorem cleanBrackets_no_brackets (l : List Char)
    (h : ∀ c ∈ l, c ≠ '(' ∧ c ≠ '[') : cleanBrackets l = l :=
  cleanFuel_no_brackets l.length l h

/-- Processing one "Device:" line whose value is a whitespace-free,
bracket-free alias followed by a space and an annotation: the second
assignment of the source overwrites the first with the catalog lookup of
the alias token. -/
theorem AVD.stepLine_device (catalog : List Device) (a : Char) (A' N : List Char)
    (d : Device)
    (h2 : ∀ c ∈ (a :: A'), pyWs c = false ∧ c ≠ '(' ∧ c ≠ '[')
    (h3 : catalog.find? (fun dv => dv.id_alias == some (String.mk (a :: A'))) = some d) :
    AVD.stepLine catalog { name := "demo" }
      ('D' :: 'e' :: 'v' :: 'i' :: 'c' :: 'e' :: ':' :: ' ' :: ((a :: A') ++ (' ' :: '(' :: (N ++ [')'])))) =
      .ok { name := "demo", device := some d } := by
  have hnws : pyWs a = false := (h2 a (by simp)).1
  have hsplit : splitColon1
      ('D' :: 'e' :: 'v' :: 'i' :: 'c' :: 'e' :: ':' :: ' ' :: ((a :: A') ++ (' ' :: '(' :: (N ++ [')'])))) =
      (['D', 'e', 'v', 'i', 'c', 'e'], ' ' :: ((a :: A') ++ (' ' :: '(' :: (N ++ [')'])))) := by
    simp [splitColon1]
  have hv : pyStrip (' ' :: ((a :: A') ++ (' ' :: '(' :: (N ++ [')'])))) =
      (a :: A') ++ (' ' :: '(' :: (N ++ [')'])) := by
    rw [pyStrip_ws_cons _ _ (by decide)]
    have h := pyStrip_sandwich a ')' (A' ++ (' ' :: '(' :: N)) hnws (by decide)
    simpa using h
  have hft : firstToken ((a :: A') ++ (' ' :: '(' :: (N ++ [')']))) = some (a :: A') := by
    simp only [List.cons_append, firstToken]
    rw [if_neg (by simp [hnws])]
    have h := takeWhile_nonws_append (a :: A') ('(' :: (N ++ [')']))
      (fun c hc => (h2 c hc).1)
    simpa using h
  have hsetter : deviceSetter catalog (a :: A') = some d := by
    unfold deviceSetter
    rw [cleanBrackets_no_brackets _ (fun c hc => (h2 c hc).2)]
    rw [pyStrip_all_nonws _ (fun c hc => (h2 c hc).1)]
    exact h3
  have hc : ('D' :: 'e' :: 'v' :: 'i' :: 'c' :: 'e' :: ':' :: ' ' ::
      ((a :: A') ++ (' ' :: '(' :: (N ++ [')'])))).contains ':' = true :=
    List.elem_iff.mpr (by simp)
  simp only [AVD.stepLine, hc, if_pos, hsplit, hv, hft, hsetter]
  rfl

/-- Claim C2 (amended): the avd-list parser resolves the Device field by its
first whitespace-delimited token (the source's second assignment, which
overwrites the annotation-stripped lookup of the first assignment).  For a
raw value consisting of an alias with no whitespace and no bracket
characters, a space, and a parenthesised annotation, this token is the alias
itself, so the record's device becomes the first catalog Device whose alias
equals it; in particular "pixel (Google Pixel 4)" resolves to the same
Device as the bare alias "pixel". -/
theorem c2_device_resolved_by_first_token (catalog : List Device)
    (al ann : String) (d : Device)
    (h1 : al.data ≠ [])
    (h2 : ∀ c ∈ al.data, pyWs c = false ∧ c ≠ '(' ∧ c ≠ '[')
    (h3 : catalog.find? (fun dv => dv.id_alias == some al) = some d) :
    _parse_avd_list catalog ["Name: demo", "Device: " ++ al ++ " (" ++ ann ++ ")"] =
      .ok [{ name := "demo", device := some d }] := by
  obtain ⟨a, A', hA⟩ : ∃ a A', al.data = a :: A' := by
    cases h : al.data with
    | nil => exact absurd h h1
    | cons x xs => exact ⟨x, xs, rfl⟩
  have e1 : ∀ s t : String, (s ++ t).data = s.data ++ t.data := fun s t => rfl
  have hdata : ("Device: " ++ al ++ " (" ++ ann ++ ")").data
      = 'D' :: 'e' :: 'v' :: 'i' :: 'c' :: 'e' :: ':' :: ' ' ::
          ((a :: A') ++ (' ' :: '(' :: (ann.data ++ [')']))) := by
    simp only [e1]
    rw [hA]
    simp
  unfold _parse_avd_list
  simp only [List.map, hdata]
  rw [show parseAvdAux catalog ["Name: demo".data,
      'D' :: 'e' :: 'v' :: 'i' :: 'c' :: 'e' :: ':' :: ' ' ::
        ((a :: A') ++ (' ' :: '(' :: (ann.data ++ [')'])))] {} =
    parseAvdAux catalog
      ['D' :: 'e' :: 'v' :: 'i' :: 'c' :: 'e' :: ':' :: ' ' ::
        ((a :: A') ++ (' ' :: '(' :: (ann.data ++ [')'])))] { name := "demo" } from rfl]
  have hstrip : pyStrip ('D' :: 'e' :: 'v' :: 'i' :: 'c' :: 'e' :: ':' :: ' ' ::
      ((a :: A') ++ (' ' :: '(' :: (ann.data ++ [')'])))) =
      'D' :: 'e' :: 'v' :: 'i' :: 'c' :: 'e' :: ':' :: ' ' ::
      ((a :: A') ++ (' ' :: '(' :: (ann.data ++ [')']))) := by
    have h := pyStrip_sandwich 'D' ')'
      ('e' :: 'v' :: 'i' :: 'c' :: 'e' :: ':' :: ' ' ::((a :: A') ++ (' ' :: '(' :: ann.data)))
      (by decide) (by decide)
    simpa using h
  have hdash : isDash4 ('D' :: 'e' :: 'v' :: 'i' :: 'c' :: 'e' :: ':' :: ' ' ::
      ((a :: A') ++ (' ' :: '(' :: (ann.data ++ [')'])))) = false := by
    simp [isDash4, List.isPrefixOf]
  have hstep := AVD.stepLine_device catalog a A' ann.data d
    (by rw [← hA]; exact h2) (by rw [← hA]; exact h3)
  simp only [parseAvdAux, hstrip, List.isEmpty_cons, hdash, Bool.false_eq_true,
    if_false, hstep]
  simp [parseAvdAux, AVD.emit, AVD.is_empty]

/-- Witness for C2 at the test suite's catalog: "pixel (Google Pixel 4)"
resolves to the Device with alias "pixel". -/
theorem c2_witness :
    _parse_avd_list
      [{ id := 0, id_alias := some "pixel", name := some "Pixel 4",
         oem := some "Google", tag := "google" },
       { id := 1, id_alias := some "Nexus_5X", name := some "Nexus 5X",
         oem := some "Google", tag := "default" }]
      ["Name: demo", "Device: " ++ "pixel" ++ " (" ++ "Google Pixel 4" ++ ")"] =
      .ok [{ name := "demo",
             device := some
               { id := 0, id_alias := some "pixel",
                 name := some "Pixel 4", oem := some "Google", tag := "google" } }] := by
  exact c2_device_resolved_by_first_token _ "pixel" "Google Pixel 4" _
    (by decide) (by decide) (by rfl)

/-- Counterexample for C2 as stated: the raw value "a b (X)" consists of
the alias "a b" followed by a parenthetical annotation, and the catalog
contains a Device whose alias is exactly the annotation-stripped prefix
"a b" (first two conjuncts).  Yet parsing yields device := none, because
the source resolves by the first whitespace-delimited token "a", not by the
annotation-stripped prefix — so the claimed Device is not assigned. -/
theorem c2_cex :
    String.mk (pyStrip (cleanBrackets ("a b (X)").data)) = "a b" ∧
    List.find? (fun dv => dv.id_alias == some "a b")
      [({ id := 5, id_alias := some "a b", name := some "Ab" } : Device)] =
      some { id := 5, id_alias := some "a b", name := some "Ab" } ∧
    _parse_avd_list [{ id := 5, id_alias := some "a b", name := some "Ab" }]
      ["Name: demo", "Device: a b (X)"] =
      .ok [{ name := "demo", device := none }] := by
  exact ⟨by rfl, by rfl, by rfl⟩
